import Mathlib

/-!
Verification of the car-rental pricing core (`apps/backend/app/domain`):
the `Money` value object, the `PricingService` and the `OfferPricingService`.

Modelling conventions:
* Python `Decimal` values are modelled by their numeric value in `ℚ`;
  every arithmetic operation applies the default-context rounding
  (28 significant digits, ROUND_HALF_EVEN), which is what Python's
  `decimal` module does.  The rounded value of an operation depends only
  on the operand values (trailing-zero representation only rescales the
  kept and dropped digit blocks together), so a value-level model is
  faithful.
* Python `float` arithmetic is idealised as exact rational arithmetic;
  none of the verified claims depends on binary rounding of floats.
* Python `datetime` values are modelled as integer day numbers;
  `(a - b).days` becomes integer subtraction.
* Python dictionaries (`car_data`, `offer_data`) become structures of
  `Option`-typed fields, `d.get(k, v)` becomes `field.getD v`.
* Raised exceptions become `Except PyErr`; the distinct Python exception
  classes (domain `ValidationError`, builtin `ValueError`, `TypeError`,
  `DivisionByZero`) are kept apart because the code dispatches on them.
-/

namespace CarRental

/-- Number of base-10 digits of `n` (1 for `n = 0`).  Fuel-based structural
recursion so that it reduces inside `decide`. -/
def digitsLen : ℕ → ℕ → ℕ
  | 0, _ => 1
  | fuel + 1, n => if n < 10 then 1 else digitsLen fuel (n / 10) + 1

def numDigits (n : ℕ) : ℕ := digitsLen n n

/-- Floor of `log10 |q|` for `q ≠ 0` (junk value at 0). -/
def decExp (q : ℚ) : ℤ :=
  if (10 : ℚ) ^ ((numDigits q.num.natAbs : ℤ) - (numDigits q.den : ℤ)) ≤ |q| then
    (numDigits q.num.natAbs : ℤ) - (numDigits q.den : ℤ)
  else
    (numDigits q.num.natAbs : ℤ) - (numDigits q.den : ℤ) - 1

/-- Round a rational to the nearest integer, ties to even
(Python `decimal` ROUND_HALF_EVEN). -/
def hEven (x : ℚ) : ℤ :=
  let n : ℤ := ⌊x⌋
  let r : ℚ := x - n
  if r < 1 / 2 then n
  else if 1 / 2 < r then n + 1
  else if n % 2 = 0 then n else n + 1

/-- Python `decimal` default context applied to the exact value of an
operation: round to `prec` significant digits, half-even. -/
def ctxRound (prec : ℕ) (q : ℚ) : ℚ :=
  if q = 0 then 0
  else
    (hEven (q / (10 : ℚ) ^ (decExp q - ((prec : ℤ) - 1))) : ℚ)
      * (10 : ℚ) ^ (decExp q - ((prec : ℤ) - 1))

/-- The default `decimal` context has 28 significant digits. -/
def round28 (q : ℚ) : ℚ := ctxRound 28 q

/-- Python exception classes raised by the pricing core. -/
inductive PyErr where
  | validationError (msg : String)
  | valueError (msg : String)
  | typeError (msg : String)
  | divisionByZero
deriving DecidableEq

instance {ε α : Type} [DecidableEq ε] [DecidableEq α] : DecidableEq (Except ε α)
  | .ok x, .ok y =>
    if h : x = y then .isTrue (by rw [h]) else .isFalse (by intro hh; cases hh; exact h rfl)
  | .ok _, .error _ => .isFalse (by intro h; cases h)
  | .error _, .ok _ => .isFalse (by intro h; cases h)
  | .error e, .error f =>
    if h : e = f then .isTrue (by rw [h]) else .isFalse (by intro hh; cases hh; exact h rfl)

/-- `str.upper()` on the ASCII range, as Python applies to currency codes. -/
def myCharUpper (c : Char) : Char :=
  if 97 ≤ c.toNat ∧ c.toNat ≤ 122 then Char.ofNat (c.toNat - 32) else c

def myUpper (s : String) : String := ⟨s.data.map myCharUpper⟩

/-- `str.lower()` on the ASCII range (used for offer-type strings). -/
def myCharLower (c : Char) : Char :=
  if 65 ≤ c.toNat ∧ c.toNat ≤ 90 then Char.ofNat (c.toNat + 32) else c

def myLower (s : String) : String := ⟨s.data.map myCharLower⟩

/-- `app/domain/value_objects/money.py` — immutable money value.
`amount` is the numeric value of the stored `Decimal`. -/
structure Money where
  amount : ℚ
  currency : String
deriving DecidableEq

/-- `Money.__init__`: the amount conversion `Decimal(str(x))` is exact
(the `Decimal` constructor never applies context rounding); the currency
is stored uppercased. -/
def Money.make (amount : ℚ) (currency : String) : Money :=
  { amount := amount, currency := myUpper currency }

/-- `Money.add`: same-currency check, then context-rounded addition. -/
def Money.add (a b : Money) : Except PyErr Money :=
  if a.currency ≠ b.currency then
    .error (.valueError "Cannot add different currencies")
  else .ok (Money.make (round28 (a.amount + b.amount)) a.currency)

/-- `Money.subtract`. -/
def Money.subtract (a b : Money) : Except PyErr Money :=
  if a.currency ≠ b.currency then
    .error (.valueError "Cannot subtract different currencies")
  else .ok (Money.make (round28 (a.amount - b.amount)) a.currency)

/-- `Money.multiply`: `Decimal(str(factor))` is exact, the product is
context-rounded. -/
def Money.multiply (a : Money) (factor : ℚ) : Money :=
  Money.make (round28 (a.amount * factor)) a.currency

/-- `Money.apply_discount`: `factor = 1 - (Decimal(str(d)) / 100)` —
a context-rounded division followed by a context-rounded subtraction —
then `multiply`. -/
def Money.apply_discount (a : Money) (d : ℚ) : Money :=
  a.multiply (round28 (1 - round28 (d / 100)))

/-- `Money.calculate_tax`: multiplies by `Decimal(str(rate)) / 100` —
note the division by 100: the method expects a percentage. -/
def Money.calculate_tax (a : Money) (rate : ℚ) : Money :=
  a.multiply (round28 (rate / 100))

/-- `Money.with_tax`. -/
def Money.with_tax (a : Money) (rate : ℚ) : Except PyErr Money :=
  a.add (a.calculate_tax rate)

/-- One entry of a car's `Packages` list. -/
structure PackageData where
  packageMonths : Option ℤ
  priceB4Discount : Option ℚ
deriving DecidableEq

/-- The string-keyed `car_data` dictionary, restricted to the keys the
pricing core reads.  `none` = key absent.  Rates are Python numbers,
modelled as exact rationals. -/
structure CarData where
  rental_price : Option ℚ := none
  rental_price_day : Option ℚ := none
  rental_price_week : Option ℚ := none
  rental_price_month : Option ℚ := none
  rental_price_mounth : Option ℚ := none
  booked_day_price : Option ℚ := none
  Currency : Option String := none
  Packages : List PackageData := []
deriving DecidableEq

/-- The string-keyed `offer` / `offer_data` dictionary, restricted to the
keys the pricing core reads. -/
structure OfferData where
  type : Option String := none
  offerType : Option String := none
  name : Option String := none
  offer : Option String := none
  price : Option ℚ := none
  offerPrice : Option ℚ := none
  percentage : Option ℚ := none
  daily_rate : Option ℚ := none
  days : Option ℤ := none
deriving DecidableEq

namespace PricingService

/-- `PricingService.TAX_RATE = 0.15` (commented `# 15% tax rate`). -/
def TAX_RATE : ℚ := 15 / 100

/-- `PricingService.calculate_base_price`. -/
def calculate_base_price (car_data : CarData) (booking_type : String) (count : ℤ) :
    Except PyErr Money :=
  let currency := car_data.Currency.getD "SAR"
  if booking_type = "Day" then
    let daily_rate := car_data.rental_price_day.getD (car_data.rental_price.getD 0)
    .ok (Money.make (daily_rate * count) currency)
  else if booking_type = "Week" then
    let weekly_rate := car_data.rental_price_week.getD 0
    let weekly_rate :=
      if weekly_rate = 0 then
        (car_data.rental_price_day.getD (car_data.rental_price.getD 0)) * 7
      else weekly_rate
    .ok (Money.make (weekly_rate * count) currency)
  else if booking_type = "Month" then
    let monthly_rate := car_data.rental_price_month.getD (car_data.rental_price_mounth.getD 0)
    let monthly_rate :=
      if monthly_rate = 0 then
        (car_data.rental_price_day.getD (car_data.rental_price.getD 0)) * 30
      else monthly_rate
    .ok (Money.make (monthly_rate * count) currency)
  else .error (.validationError "Invalid booking type")

/-- `PricingService.calculate_package_price`: first package whose
`packageMonths` equals the requested count. -/
def calculate_package_price (car_data : CarData) (package_months : ℤ) :
    Except PyErr Money :=
  match car_data.Packages.find? (fun p => p.packageMonths == some package_months) with
  | some p => .ok (Money.make (p.priceB4Discount.getD 0) (car_data.Currency.getD "SAR"))
  | none => .error (.validationError "Package not found")

/-- `PricingService.apply_discount`: validates the percent range, then
delegates to `Money.apply_discount`. -/
def apply_discount (base_price : Money) (discount_percent : ℚ) : Except PyErr Money :=
  if discount_percent < 0 ∨ discount_percent > 100 then
    .error (.validationError "Discount percent must be between 0 and 100")
  else .ok (base_price.apply_discount discount_percent)

/-- `PricingService.calculate_taxes`: passes the *fraction* `0.15` to
`Money.calculate_tax`, which divides by 100 once more. -/
def calculate_taxes (taxable_amount : Money) : Money :=
  taxable_amount.calculate_tax TAX_RATE

/-- `PricingService._calculate_offer_price` — lower-cased `type` dispatch;
unknown types fall back to the offer's fixed `price` (default 0). -/
def calculate_offer_price_legacy (offer : OfferData) (base_price : Money) : Money :=
  let offer_type := myLower (offer.type.getD "")
  if offer_type = "km_package" then
    base_price.multiply (25 / 100)
  else if offer_type = "insurance" then
    base_price.multiply ((offer.percentage.getD 0) / 100)
  else if offer_type = "documents" then
    Money.make (offer.price.getD 0) base_price.currency
  else if offer_type = "child_chair" then
    Money.make ((offer.daily_rate.getD 0) * (offer.days.getD 1)) base_price.currency
  else
    Money.make (offer.price.getD 0) base_price.currency

/-- `PricingService.calculate_offers_total` — running `Money.add` over the
per-offer prices, starting from zero in the base price's currency. -/
def calculate_offers_total (offers : List OfferData) (base_price : Money) :
    Except PyErr Money :=
  offers.foldlM (fun total offer => total.add (calculate_offer_price_legacy offer base_price))
    (Money.make 0 base_price.currency)

/-- The dictionary returned by `calculate_total_booking_cost`. -/
structure Breakdown where
  booking_cost : Money
  taxes : Money
  delivery_fee : Money
  offers_total : Money
  total_cost : Money
deriving DecidableEq

/-- `PricingService.calculate_total_booking_cost`.  Python truthiness:
`if is_package_booking and package_months:` is true only for a present,
non-zero month count; `if offers:` is true only for a non-empty list. -/
def calculate_total_booking_cost (car_data : CarData) (booking_type : String)
    (count : ℤ) (discount_percent : ℚ := 0) (delivery_fee : ℚ := 0)
    (offers : List OfferData := []) (is_package_booking : Bool := false)
    (package_months : Option ℤ := none) : Except PyErr Breakdown := do
  let currency := car_data.Currency.getD "SAR"
  let booking_cost ←
    if is_package_booking ∧ package_months.getD 0 ≠ 0 then
      calculate_package_price car_data (package_months.getD 0)
    else
      calculate_base_price car_data booking_type count
  let booking_cost ←
    if discount_percent > 0 then apply_discount booking_cost discount_percent
    else pure booking_cost
  let offers_total ←
    if offers ≠ [] then calculate_offers_total offers booking_cost
    else pure (Money.make 0 currency)
  let taxes := calculate_taxes booking_cost
  let delivery := Money.make delivery_fee currency
  let t1 ← booking_cost.add taxes
  let t2 ← t1.add delivery
  let total_cost ← t2.add offers_total
  pure { booking_cost := booking_cost, taxes := taxes, delivery_fee := delivery,
         offers_total := offers_total, total_cost := total_cost }

end PricingService

/-- Contract fields read by `PricingService.calculate_extension_cost`;
dates are day numbers, `duration_days = end - start`. -/
structure Contract where
  booking_type : String
  booking_cost : Money
  start_date : ℤ
  end_date : ℤ
deriving DecidableEq

/-- A Python number as it flows through `calculate_extension_cost`:
`int` durations, `float` derived durations (`duration_days / 7`), and
`Decimal` money amounts.  Mixing `Decimal` with `float` raises
`TypeError`; `Decimal` results are context-rounded. -/
inductive PyNum where
  | int (n : ℤ)
  | float (q : ℚ)
  | dec (q : ℚ)
deriving DecidableEq

/-- Python `/` (true division) on the value kinds above. -/
def PyNum.div : PyNum → PyNum → Except PyErr PyNum
  | .dec a, .dec b =>
    if b = 0 then .error .divisionByZero else .ok (.dec (round28 (a / b)))
  | .dec a, .int n =>
    if n = 0 then .error .divisionByZero else .ok (.dec (round28 (a / n)))
  | .dec _, .float _ => .error (.typeError "unsupported operand type for div")
  | .float _, .dec _ => .error (.typeError "unsupported operand type for div")
  | .int n, .dec b =>
    if b = 0 then .error .divisionByZero else .ok (.dec (round28 (n / b)))
  | .int a, .int b =>
    if b = 0 then .error .divisionByZero else .ok (.float (a / b : ℚ))
  | .float a, .int b =>
    if b = 0 then .error .divisionByZero else .ok (.float (a / b))
  | .int a, .float b =>
    if b = 0 then .error .divisionByZero else .ok (.float (a / b))
  | .float a, .float b =>
    if b = 0 then .error .divisionByZero else .ok (.float (a / b))

/-- Python `*` on the same value kinds. -/
def PyNum.mul : PyNum → PyNum → Except PyErr PyNum
  | .dec a, .dec b => .ok (.dec (round28 (a * b)))
  | .dec a, .int n => .ok (.dec (round28 (a * n)))
  | .int n, .dec a => .ok (.dec (round28 (a * n)))
  | .dec _, .float _ => .error (.typeError "unsupported operand type for mul")
  | .float _, .dec _ => .error (.typeError "unsupported operand type for mul")
  | .int a, .int b => .ok (.int (a * b))
  | .float a, .int b => .ok (.float (a * b))
  | .int a, .float b => .ok (.float (a * b))
  | .float a, .float b => .ok (.float (a * b))

/-- `Money(x, currency)` applied to a dynamically typed amount. -/
def moneyOfPy (x : PyNum) (currency : String) : Money :=
  match x with
  | .int n => Money.make n currency
  | .float q => Money.make q currency
  | .dec q => Money.make q currency

namespace PricingService

/-- `PricingService.calculate_extension_cost`.  The pro-ration divides the
`Decimal` booking cost by `duration_days` (an `int`) on the daily paths,
but by `duration_weeks` / `duration_months` (Python `float`s, since
`DateRange` computes them with true division) on the weekly/monthly
paths. -/
def calculate_extension_cost (contract : Contract) (new_end_date : ℤ) :
    Except PyErr Money := do
  if new_end_date ≤ contract.end_date then
    .error (.validationError "Extension date must be after current end date")
  else do
    let extension_days : ℤ := new_end_date - contract.end_date
    let duration_days : ℤ := contract.end_date - contract.start_date
    let amount := contract.booking_cost.amount
    let currency := contract.booking_cost.currency
    let extension_cost ←
      if contract.booking_type = "Day" then do
        let daily_rate ← PyNum.div (.dec amount) (.int duration_days)
        let cost ← PyNum.mul daily_rate (.int extension_days)
        pure (moneyOfPy cost currency)
      else if contract.booking_type = "Week" then
        if extension_days < 7 then do
          let daily_rate ← PyNum.div (.dec amount) (.int duration_days)
          let cost ← PyNum.mul daily_rate (.int extension_days)
          pure (moneyOfPy cost currency)
        else do
          let duration_weeks ← PyNum.div (.int duration_days) (.int 7)
          let weekly_rate ← PyNum.div (.dec amount) duration_weeks
          let ratio_weeks ← PyNum.div (.int extension_days) (.int 7)
          let cost ← PyNum.mul weekly_rate ratio_weeks
          pure (moneyOfPy cost currency)
      else if contract.booking_type = "Month" then
        if extension_days < 30 then do
          let daily_rate ← PyNum.div (.dec amount) (.int duration_days)
          let cost ← PyNum.mul daily_rate (.int extension_days)
          pure (moneyOfPy cost currency)
        else do
          let duration_months ← PyNum.div (.int duration_days) (.int 30)
          let monthly_rate ← PyNum.div (.dec amount) duration_months
          let ratio_months ← PyNum.div (.int extension_days) (.int 30)
          let cost ← PyNum.mul monthly_rate ratio_months
          pure (moneyOfPy cost currency)
      else .error (.validationError "Unknown booking type")
    let extension_taxes := calculate_taxes extension_cost
    extension_cost.add extension_taxes

end PricingService

/-- One value of the `external_offer_prices` dictionary: the optional L2
(weekly) and L3 (monthly) per-day tier rates of an offer. -/
structure TierPrices where
  L2 : Option ℚ := none
  L3 : Option ℚ := none
deriving DecidableEq

/-- `OfferPricingService.external_offer_prices` — the mutable state set by
`set_external_offer_prices`, keyed by offer name. -/
abbrev ExtPrices := List (String × TierPrices)

/-- `self.external_offer_prices.get(offer_name, {})`. -/
def ExtPrices.get (xs : ExtPrices) (k : String) : TierPrices :=
  (List.lookup k xs).getD {}

namespace OfferPricingService

/-- `OfferPricingService.TAX_RATE = 0.15`. -/
def TAX_RATE : ℚ := 15 / 100
/-- `INSURANCE_PERCENTAGE = 0.20`. -/
def INSURANCE_PERCENTAGE : ℚ := 20 / 100
/-- `KM_PERCENTAGE = 0.25`. -/
def KM_PERCENTAGE : ℚ := 25 / 100
def DAYS_PER_WEEK : ℤ := 7
def DAYS_PER_MONTH : ℤ := 30

/-- Membership of the `BookingType` enum: `BookingType(s)` raises a
builtin `ValueError` (not the domain `ValidationError`) otherwise. -/
def isBookingType (s : String) : Prop := s = "Day" ∨ s = "Week" ∨ s = "Month"

instance (s : String) : Decidable (isBookingType s) := by
  unfold isBookingType; infer_instance

/-- Membership of the `OfferType` enum. -/
def isOfferType (s : String) : Prop :=
  s = "Insurance" ∨ s = "KM" ∨ s = "ChildChair" ∨ s = "Documents"

instance (s : String) : Decidable (isOfferType s) := by
  unfold isOfferType; infer_instance

/-- `OfferPricingService.calculate_current_car_price`.  The enum
conversion runs first and raises `ValueError` on unknown units.  On the
`Day` path a truthy `booked_day_price` is returned immediately, before
the final `<= 0` validation. -/
def calculate_current_car_price (car_data : CarData) (booking_type : String)
    (has_discount : Bool := false) (discount_percent : ℚ := 0) :
    Except PyErr ℚ :=
  if ¬ isBookingType booking_type then
    .error (.valueError "is not a valid BookingType")
  else if booking_type = "Day" then
    -- `if base_price:` — truthy means present and non-zero
    if car_data.booked_day_price.getD 0 ≠ 0 then
      .ok (car_data.booked_day_price.getD 0)
    else
      let base_price := car_data.rental_price_day.getD (car_data.rental_price.getD 0)
      let base_price :=
        if has_discount ∧ discount_percent > 0 then
          base_price * (1 - discount_percent / 100)
        else base_price
      if base_price ≤ 0 then .error (.validationError "Invalid car price for booking type")
      else .ok base_price
  else if booking_type = "Week" then
    let base_price := car_data.rental_price_week.getD 0
    let base_price :=
      if has_discount ∧ discount_percent > 0 then
        base_price * (1 - discount_percent / 100)
      else base_price
    if base_price ≤ 0 then .error (.validationError "Invalid car price for booking type")
    else .ok base_price
  else
    let base_price := car_data.rental_price_month.getD 0
    let base_price :=
      if has_discount ∧ discount_percent > 0 then
        base_price * (1 - discount_percent / 100)
      else base_price
    if base_price ≤ 0 then .error (.validationError "Invalid car price for booking type")
    else .ok base_price

/-- `OfferPricingService.calculate_total_days`. -/
def calculate_total_days (booking_type : String) (units : ℤ) : Except PyErr ℤ :=
  if ¬ isBookingType booking_type then
    .error (.valueError "is not a valid BookingType")
  else if booking_type = "Day" then .ok units
  else if booking_type = "Week" then .ok (units * DAYS_PER_WEEK)
  else .ok (units * DAYS_PER_MONTH)

/-- `calculate_insurance_offer_price`: `(price × units) × 20%`, in floats,
stored exactly by the `Money` constructor. -/
def calculate_insurance_offer_price (current_car_price : ℚ) (units : ℤ)
    (currency : String := "SAR") : Money :=
  Money.make (current_car_price * units * INSURANCE_PERCENTAGE) currency

/-- `calculate_km_offer_price`: `(price × units) × 25%`. -/
def calculate_km_offer_price (current_car_price : ℚ) (units : ℤ)
    (currency : String := "SAR") : Money :=
  Money.make (current_car_price * units * KM_PERCENTAGE) currency

/-- `calculate_child_chair_offer_price`: daily price × units for `Day`;
for `Week`/`Month` the stored external L2/L3 per-day tier rate is
preferred, falling back to the offer's own daily price, × total days. -/
def calculate_child_chair_offer_price (ext : ExtPrices) (offer_data : OfferData)
    (booking_type : String) (units : ℤ) (total_days : ℤ)
    (currency : String := "SAR") : Except PyErr Money :=
  if ¬ isBookingType booking_type then
    .error (.valueError "is not a valid BookingType")
  else
    let offer_name := offer_data.offer.getD (offer_data.name.getD "")
    let external_prices := ext.get offer_name
    let daily_price := offer_data.offerPrice.getD (offer_data.price.getD 0)
    if booking_type = "Day" then
      .ok (Money.make (daily_price * units) currency)
    else if booking_type = "Week" then
      match external_prices.L2 with
      | some l2 => .ok (Money.make (l2 * total_days) currency)
      | none => .ok (Money.make (daily_price * total_days) currency)
    else
      match external_prices.L3 with
      | some l3 => .ok (Money.make (l3 * total_days) currency)
      | none => .ok (Money.make (daily_price * total_days) currency)

/-- `max(1, (days + 29) // 30)` — Python floor division. -/
def monthsNeeded (days : ℤ) : ℤ := max 1 ((days + 29).fdiv 30)

/-- `calculate_documents_offer_price` (extension variant): months between
the contract end dates, rounded up, minimum one. -/
def calculate_documents_offer_price (offer_data : OfferData)
    (current_end_date new_end_date : ℤ) (currency : String := "SAR") : Money :=
  let extension_days := new_end_date - current_end_date
  let months_to_add := monthsNeeded extension_days
  let monthly_price := offer_data.offerPrice.getD (offer_data.price.getD 0)
  Money.make (monthly_price * months_to_add) currency

/-- `calculate_documents_offer_price_for_booking`: for `Day`/`Week` the
unit count is converted to days and months are rounded up with a
minimum of one; for `Month` the unit count is used directly (no
minimum). -/
def calculate_documents_offer_price_for_booking (offer_data : OfferData)
    (booking_type : String) (units : ℤ) (currency : String := "SAR") :
    Except PyErr Money :=
  if ¬ isBookingType booking_type then
    .error (.valueError "is not a valid BookingType")
  else
    let monthly_price := offer_data.offerPrice.getD (offer_data.price.getD 0)
    if booking_type = "Day" then
      .ok (Money.make (monthly_price * monthsNeeded units) currency)
    else if booking_type = "Week" then
      .ok (Money.make (monthly_price * monthsNeeded (units * DAYS_PER_WEEK)) currency)
    else
      .ok (Money.make (monthly_price * units) currency)

/-- `OfferPricingService.calculate_offer_price` — central dispatch.  The
`OfferType` conversion failure is caught and re-raised as the domain
`ValidationError` ("Unsupported offer type"); then the current car price
and total days are computed before dispatching. -/
def calculate_offer_price (ext : ExtPrices) (offer_data : OfferData)
    (car_data : CarData) (booking_type : String) (units : ℤ)
    (currency : String := "SAR") (current_end_date : Option ℤ := none)
    (new_end_date : Option ℤ := none) (has_discount : Bool := false)
    (discount_percent : ℚ := 0) : Except PyErr Money := do
  let offer_type := offer_data.offerType.getD (offer_data.type.getD "")
  if ¬ isOfferType offer_type then
    .error (.validationError "Unsupported offer type")
  else do
    let current_car_price ←
      calculate_current_car_price car_data booking_type has_discount discount_percent
    let total_days ← calculate_total_days booking_type units
    if offer_type = "Insurance" then
      pure (calculate_insurance_offer_price current_car_price units currency)
    else if offer_type = "KM" then
      pure (calculate_km_offer_price current_car_price units currency)
    else if offer_type = "ChildChair" then
      calculate_child_chair_offer_price ext offer_data booking_type units total_days currency
    else
      -- Documents: `if not current_end_date or not new_end_date`
      if current_end_date = none ∨ new_end_date = none then
        calculate_documents_offer_price_for_booking offer_data booking_type units currency
      else
        pure (calculate_documents_offer_price offer_data (current_end_date.getD 0)
          (new_end_date.getD 0) currency)

/-- `OfferPricingService.calculate_extension_cost`: custom override rate
(`is not None` check, positivity validated) or the current car price,
times the unit count. -/
def calculate_extension_cost (car_data : CarData) (booking_type : String)
    (units : ℤ) (currency : String := "SAR") (has_discount : Bool := false)
    (discount_percent : ℚ := 0) (is_custom_rate : Bool := false)
    (custom_rate : Option ℚ := none) : Except PyErr Money := do
  let rate ←
    if is_custom_rate ∧ custom_rate ≠ none then
      if custom_rate.getD 0 ≤ 0 then
        .error (.validationError "Custom rate must be positive")
      else pure (custom_rate.getD 0)
    else
      calculate_current_car_price car_data booking_type has_discount discount_percent
  pure (Money.make (rate * units) currency)

/-- One entry of the `offer_breakdown` list. -/
structure OfferLine where
  name : String
  type : String
  cost : ℚ
deriving DecidableEq

/-- The dictionary returned by `calculate_total_extension_cost`
(the verbatim input copies inside `calculation_details` are omitted;
the two computed detail entries are kept). -/
structure ExtBreakdown where
  extension_cost : ℚ
  offers_total : ℚ
  offer_breakdown : List OfferLine
  subtotal : ℚ
  taxes : ℚ
  total_cost : ℚ
  currency : String
  details_total_days : ℤ
  details_current_car_price : Option ℚ
deriving DecidableEq

/-- The `try/except` body of the per-offer loop: price the offer and fold
it into the running total; any exception leaves the accumulator
unchanged (the offer is skipped). -/
def foldOffer (ext : ExtPrices) (car_data : CarData) (booking_type : String)
    (units : ℤ) (currency : String) (current_end_date new_end_date : Option ℤ)
    (has_discount : Bool) (discount_percent : ℚ)
    (acc : Money × List OfferLine) (offer : OfferData) : Money × List OfferLine :=
  let attempt : Except PyErr (Money × OfferLine) := do
    let offer_cost ← calculate_offer_price ext offer car_data booking_type units
      currency current_end_date new_end_date has_discount discount_percent
    let new_total ← acc.1.add offer_cost
    pure (new_total, { name := offer.offer.getD (offer.name.getD "Unknown"),
                       type := offer.offerType.getD (offer.type.getD "Unknown"),
                       cost := offer_cost.amount })
  match attempt with
  | .ok (new_total, line) => (new_total, acc.2 ++ [line])
  | .error _ => acc

/-- `OfferPricingService.calculate_total_extension_cost`: base extension
cost, then the offer loop with per-offer exception skipping, then 15%
tax on the subtotal (here the rate is used directly as a multiplier). -/
def calculate_total_extension_cost (ext : ExtPrices) (car_data : CarData)
    (booking_type : String) (units : ℤ) (offers : List OfferData := [])
    (currency : String := "SAR") (current_end_date : Option ℤ := none)
    (new_end_date : Option ℤ := none) (has_discount : Bool := false)
    (discount_percent : ℚ := 0) (is_custom_rate : Bool := false)
    (custom_rate : Option ℚ := none) : Except PyErr ExtBreakdown := do
  let extension_cost ← calculate_extension_cost car_data booking_type units currency
    has_discount discount_percent is_custom_rate custom_rate
  let start : Money × List OfferLine := (Money.make 0 currency, [])
  let folded := offers.foldl
    (foldOffer ext car_data booking_type units currency current_end_date new_end_date
      has_discount discount_percent) start
  let total_offers_cost := folded.1
  let offer_breakdown := folded.2
  let subtotal ← extension_cost.add total_offers_cost
  let taxes := subtotal.multiply TAX_RATE
  let total_cost ← subtotal.add taxes
  let details_days ← calculate_total_days booking_type units
  let details_price : Option ℚ ←
    if ¬ is_custom_rate then do
      let p ← calculate_current_car_price car_data booking_type has_discount discount_percent
      pure (some p)
    else pure custom_rate
  pure { extension_cost := extension_cost.amount,
         offers_total := total_offers_cost.amount,
         offer_breakdown := offer_breakdown,
         subtotal := subtotal.amount,
         taxes := taxes.amount,
         total_cost := total_cost.amount,
         currency := currency,
         details_total_days := details_days,
         details_current_car_price := details_price }

end OfferPricingService

/-! ### Toolkit: digit counts, `decExp`, `hEven`, `round28` -/

theorem one_le_digitsLen (fuel n : ℕ) : 1 ≤ digitsLen fuel n := by
  cases fuel with
  | zero => simp [digitsLen]
  | succ f => rw [digitsLen]; split <;> omega

theorem digitsLen_le (fuel n k : ℕ) (hk : 1 ≤ k) (h : n < 10 ^ k) :
    digitsLen fuel n ≤ k := by
  induction fuel generalizing n k with
  | zero => simpa [digitsLen] using hk
  | succ f ih =>
    rw [digitsLen]
    split
    · exact hk
    · rename_i hn
      push_neg at hn
      have hk2 : 2 ≤ k := by
        by_contra hcon
        have hk1 : k = 1 := by omega
        subst hk1
        simp only [pow_one] at h
        omega
      have hpow : 10 ^ k = 10 ^ (k - 1) * 10 := by
        conv_lhs => rw [show k = (k - 1) + 1 by omega]
        rw [pow_succ]
      have hdiv : n / 10 < 10 ^ (k - 1) :=
        Nat.div_lt_of_lt_mul (by omega)
      have := ih (n / 10) (k - 1) (by omega) hdiv
      omega

theorem lt_pow_digitsLen (fuel n : ℕ) (hfuel : n ≤ fuel) :
    n < 10 ^ digitsLen fuel n := by
  induction fuel generalizing n with
  | zero =>
    have hn : n = 0 := by omega
    subst hn
    simp [digitsLen]
  | succ f ih =>
    rw [digitsLen]
    split
    · rename_i hn
      simpa using hn
    · rename_i hn
      push_neg at hn
      have hrec := ih (n / 10) (by omega)
      rw [pow_succ]
      have h3 : (n / 10 + 1) * 10 ≤ 10 ^ digitsLen f (n / 10) * 10 :=
        Nat.mul_le_mul_right _ hrec
      have h4 : n < (n / 10 + 1) * 10 := by omega
      omega

theorem pow_digitsLen_le (fuel n : ℕ) (hfuel : n ≤ fuel) (hn : 1 ≤ n) :
    10 ^ (digitsLen fuel n - 1) ≤ n := by
  induction fuel generalizing n with
  | zero => omega
  | succ f ih =>
    rw [digitsLen]
    split
    · simpa using hn
    · rename_i hn10
      push_neg at hn10
      have hd1 : 1 ≤ digitsLen f (n / 10) := one_le_digitsLen f (n / 10)
      have hrec := ih (n / 10) (by omega) (by omega)
      have hsplit : 10 ^ digitsLen f (n / 10) = 10 ^ (digitsLen f (n / 10) - 1) * 10 := by
        conv_lhs => rw [show digitsLen f (n / 10) = (digitsLen f (n / 10) - 1) + 1 by omega]
        rw [pow_succ]
      have h3 : 10 ^ (digitsLen f (n / 10) - 1) * 10 ≤ (n / 10) * 10 :=
        Nat.mul_le_mul_right _ hrec
      simp only [Nat.add_sub_cancel]
      omega

theorem numDigits_le {n k : ℕ} (hk : 1 ≤ k) (h : n < 10 ^ k) : numDigits n ≤ k :=
  digitsLen_le n n k hk h

theorem lt_pow_numDigits (n : ℕ) : n < 10 ^ numDigits n :=
  lt_pow_digitsLen n n le_rfl

theorem pow_numDigits_le {n : ℕ} (hn : 1 ≤ n) : 10 ^ (numDigits n - 1) ≤ n :=
  pow_digitsLen_le n n le_rfl hn

theorem one_le_numDigits (n : ℕ) : 1 ≤ numDigits n := one_le_digitsLen n n

theorem numDigits_eq {n k : ℕ} (h1 : 10 ^ k ≤ n) (h2 : n < 10 ^ (k + 1)) :
    numDigits n = k + 1 := by
  have ha := numDigits_le (n := n) (k := k + 1) (by omega) h2
  have hb := lt_pow_numDigits n
  have hc : k < numDigits n := by
    by_contra hcon
    push_neg at hcon
    have := Nat.pow_le_pow_right (show 1 ≤ 10 by omega) hcon
    omega
  omega

theorem abs_rat_eq (q : ℚ) : |q| = (q.num.natAbs : ℚ) / (q.den : ℚ) := by
  conv_lhs => rw [← Rat.num_div_den q]
  rw [abs_div]
  congr 1
  · rw [← Int.cast_abs, ← Int.cast_natAbs]
  · rw [abs_of_pos]
    exact_mod_cast q.pos

theorem natCast_lt_zpow_numDigits (b : ℕ) :
    (b : ℚ) < (10 : ℚ) ^ (numDigits b : ℤ) := by
  have h := lt_pow_numDigits b
  rw [zpow_natCast]
  exact_mod_cast h

theorem zpow_numDigits_le_natCast {a : ℕ} (ha : 1 ≤ a) :
    (10 : ℚ) ^ ((numDigits a : ℤ) - 1) ≤ (a : ℚ) := by
  have h := pow_numDigits_le ha
  have h1 := one_le_numDigits a
  rw [show (numDigits a : ℤ) - 1 = ((numDigits a - 1 : ℕ) : ℤ) by omega, zpow_natCast]
  exact_mod_cast h

theorem zpow_decExp_le {q : ℚ} (hq : q ≠ 0) : (10 : ℚ) ^ decExp q ≤ |q| := by
  unfold decExp
  split
  · rename_i hcond
    exact hcond
  · rename_i hcond
    push_neg at hcond
    have ha1 : 1 ≤ q.num.natAbs := Int.natAbs_pos.mpr (Rat.num_ne_zero.mpr hq)
    have hbpos : (0 : ℚ) < (q.den : ℚ) := by exact_mod_cast q.pos
    rw [abs_rat_eq, le_div_iff₀ hbpos]
    have step : (10 : ℚ) ^ ((numDigits q.num.natAbs : ℤ) - (numDigits q.den : ℤ) - 1)
        * (q.den : ℚ)
        < (10 : ℚ) ^ ((numDigits q.num.natAbs : ℤ) - (numDigits q.den : ℤ) - 1)
        * (10 : ℚ) ^ (numDigits q.den : ℤ) :=
      mul_lt_mul_of_pos_left (natCast_lt_zpow_numDigits q.den) (by positivity)
    have merge : (10 : ℚ) ^ ((numDigits q.num.natAbs : ℤ) - (numDigits q.den : ℤ) - 1)
        * (10 : ℚ) ^ (numDigits q.den : ℤ)
        = (10 : ℚ) ^ ((numDigits q.num.natAbs : ℤ) - 1) := by
      rw [← zpow_add₀ (by norm_num : (10 : ℚ) ≠ 0)]
      congr 1
      ring
    refine le_of_lt ?_
    calc (10 : ℚ) ^ ((numDigits q.num.natAbs : ℤ) - (numDigits q.den : ℤ) - 1) * (q.den : ℚ)
        < (10 : ℚ) ^ ((numDigits q.num.natAbs : ℤ) - 1) := by rw [← merge]; exact step
      _ ≤ (q.num.natAbs : ℚ) := zpow_numDigits_le_natCast ha1

theorem abs_lt_zpow_decExp_succ {q : ℚ} (_hq : q ≠ 0) :
    |q| < (10 : ℚ) ^ (decExp q + 1) := by
  unfold decExp
  split
  · rename_i hcond
    have ha1 : 1 ≤ q.den := q.pos
    have hbpos : (0 : ℚ) < (q.den : ℚ) := by exact_mod_cast q.pos
    rw [abs_rat_eq, div_lt_iff₀ hbpos]
    have hnum : (q.num.natAbs : ℚ) < (10 : ℚ) ^ (numDigits q.num.natAbs : ℤ) :=
      natCast_lt_zpow_numDigits q.num.natAbs
    have hden : (10 : ℚ) ^ ((numDigits q.den : ℤ) - 1) ≤ (q.den : ℚ) :=
      zpow_numDigits_le_natCast ha1
    have merge : (10 : ℚ) ^ ((numDigits q.num.natAbs : ℤ) - (numDigits q.den : ℤ) + 1)
        * (10 : ℚ) ^ ((numDigits q.den : ℤ) - 1)
        = (10 : ℚ) ^ (numDigits q.num.natAbs : ℤ) := by
      rw [← zpow_add₀ (by norm_num : (10 : ℚ) ≠ 0)]
      congr 1
      ring
    calc (q.num.natAbs : ℚ)
        < (10 : ℚ) ^ (numDigits q.num.natAbs : ℤ) := hnum
      _ = (10 : ℚ) ^ ((numDigits q.num.natAbs : ℤ) - (numDigits q.den : ℤ) + 1)
          * (10 : ℚ) ^ ((numDigits q.den : ℤ) - 1) := merge.symm
      _ ≤ (10 : ℚ) ^ ((numDigits q.num.natAbs : ℤ) - (numDigits q.den : ℤ) + 1)
          * (q.den : ℚ) := by
        apply mul_le_mul_of_nonneg_left hden (by positivity)
  · rename_i hcond
    push_neg at hcond
    rw [sub_add_cancel]
    exact hcond

theorem decExp_lt_of_abs_lt {q : ℚ} {x : ℤ} (hq : q ≠ 0)
    (h : |q| < (10 : ℚ) ^ x) : decExp q < x := by
  have h1 := zpow_decExp_le hq
  have h2 : (10 : ℚ) ^ decExp q < (10 : ℚ) ^ x := lt_of_le_of_lt h1 h
  by_contra hcon
  push_neg at hcon
  have := zpow_le_zpow_right₀ (show (1 : ℚ) ≤ 10 by norm_num) hcon
  linarith

theorem hEven_intCast (z : ℤ) : hEven (z : ℚ) = z := by
  unfold hEven
  rw [Int.floor_intCast]
  norm_num

theorem round28_zero : round28 0 = 0 := by
  simp [round28, ctxRound]

/-- A value `c · 10^t` with at most 28 significant digits is a fixed point
of the default-context rounding. -/
theorem round28_int_mul_zpow (c t : ℤ) (hc : c.natAbs < 10 ^ 28) :
    round28 ((c : ℚ) * (10 : ℚ) ^ t) = (c : ℚ) * (10 : ℚ) ^ t := by
  by_cases hc0 : c = 0
  · subst hc0
    simp [round28_zero]
  · have h10 : (10 : ℚ) ≠ 0 := by norm_num
    set q : ℚ := (c : ℚ) * (10 : ℚ) ^ t with hqdef
    have h0 : q ≠ 0 := by
      apply mul_ne_zero
      · exact_mod_cast hc0
      · exact zpow_ne_zero t h10
    unfold round28 ctxRound
    rw [if_neg h0]
    have habs : |q| < (10 : ℚ) ^ ((28 : ℤ) + t) := by
      rw [hqdef, abs_mul, abs_of_pos (show (0:ℚ) < (10:ℚ) ^ t by positivity)]
      have hcabs : |(c : ℚ)| < (10 : ℚ) ^ (28 : ℤ) := by
        rw [← Int.cast_abs, ← Int.cast_natAbs]
        rw [show ((28 : ℤ)) = ((28 : ℕ) : ℤ) by norm_num, zpow_natCast]
        exact_mod_cast hc
      calc |(c : ℚ)| * (10 : ℚ) ^ t
          < (10 : ℚ) ^ (28 : ℤ) * (10 : ℚ) ^ t := by
            apply mul_lt_mul_of_pos_right hcabs (by positivity)
        _ = (10 : ℚ) ^ ((28 : ℤ) + t) := by
            rw [← zpow_add₀ h10]
    have hTle : decExp q - 27 ≤ t := by
      have := decExp_lt_of_abs_lt h0 habs
      omega
    have h28 : ((28 : ℕ) : ℤ) - 1 = 27 := by norm_num
    rw [h28]
    set T : ℤ := decExp q - 27 with hT
    have hcast10 : ((10 : ℤ) : ℚ) = (10 : ℚ) := by norm_num
    have key : q / (10 : ℚ) ^ T = ((c * 10 ^ (t - T).toNat : ℤ) : ℚ) := by
      rw [Int.cast_mul, Int.cast_pow, hcast10]
      rw [← zpow_natCast (10 : ℚ) (t - T).toNat,
        Int.toNat_of_nonneg (show (0 : ℤ) ≤ t - T by omega)]
      rw [hqdef, div_eq_mul_inv, ← zpow_neg, mul_assoc, ← zpow_add₀ h10,
        sub_eq_add_neg]
    rw [key, hEven_intCast]
    rw [Int.cast_mul, Int.cast_pow, hcast10]
    rw [← zpow_natCast (10 : ℚ) (t - T).toNat,
      Int.toNat_of_nonneg (show (0 : ℤ) ≤ t - T by omega)]
    rw [mul_assoc, ← zpow_add₀ h10, sub_add_cancel]

/-- Usable form: if `q` scaled by `10^s` is an integer of at most 28
digits, the context rounding keeps `q` unchanged. -/
theorem round28_decimal {q : ℚ} (c : ℤ) (s : ℕ) (hq : q * 10 ^ s = (c : ℚ))
    (hc : c.natAbs < 10 ^ 28) : round28 q = q := by
  have h10 : ((10 : ℚ) ^ s) ≠ 0 := by positivity
  have hqc : q = (c : ℚ) * (10 : ℚ) ^ (-(s : ℤ)) := by
    rw [zpow_neg, zpow_natCast]
    field_simp
    linarith [hq]
  rw [hqc]
  exact round28_int_mul_zpow c (-(s : ℤ)) hc

/-! ### Shared plumbing lemmas -/

theorem exceptBind_ok {ε α β : Type} (a : α) (f : α → Except ε β) :
    (Except.ok a >>= f : Except ε β) = f a := rfl

theorem exceptBind_error {ε α β : Type} (e : ε) (f : α → Except ε β) :
    (Except.error e >>= f : Except ε β) = Except.error e := rfl

theorem exceptPure {ε α : Type} (a : α) : (pure a : Except ε α) = Except.ok a := rfl

theorem char_toNat_ofNat {m : ℕ} (h : m < 55296) : (Char.ofNat m).toNat = m := by
  simp [Char.ofNat, Char.toNat, Nat.isValidChar, h, Char.ofNatAux]
  rfl

theorem myCharUpper_idem (c : Char) : myCharUpper (myCharUpper c) = myCharUpper c := by
  by_cases h : 97 ≤ c.toNat ∧ c.toNat ≤ 122
  · have h1 : myCharUpper c = Char.ofNat (c.toNat - 32) := by
      simp [myCharUpper, h]
    have h2 : (Char.ofNat (c.toNat - 32)).toNat = c.toNat - 32 :=
      char_toNat_ofNat (by omega)
    rw [h1]
    unfold myCharUpper
    rw [if_neg (by rw [h2]; omega)]
  · have h1 : myCharUpper c = c := by simp [myCharUpper, h]
    rw [h1, h1]

theorem myUpper_idem (s : String) : myUpper (myUpper s) = myUpper s := by
  show String.mk ((s.data.map myCharUpper).map myCharUpper)
      = String.mk (s.data.map myCharUpper)
  congr 1
  rw [List.map_map]
  exact List.map_congr_left fun c _ => myCharUpper_idem c

/-- `Money.add` always succeeds on equal currencies. -/
theorem money_add_of_currency_eq {a b : Money} (h : a.currency = b.currency) :
    a.add b = .ok (Money.make (round28 (a.amount + b.amount)) a.currency) := by
  unfold Money.add
  rw [if_neg (by simp [h])]

theorem foldl_skip {α β : Type} (f : β → α → β) (bad : α) (pre post : List α)
    (h : ∀ acc : β, f acc bad = acc) (s : β) :
    List.foldl f s (pre ++ bad :: post) = List.foldl f s (pre ++ post) := by
  rw [List.foldl_append, List.foldl_append, List.foldl_cons, h]

/-- An offer whose pricing raises is skipped by the per-offer `try/except`
of the extension batch: the accumulator is unchanged. -/
theorem foldOffer_skip {ext : ExtPrices} {car : CarData} {bt : String} {units : ℤ}
    {currency : String} {ce ne : Option ℤ} {hd : Bool} {dp : ℚ}
    {bad : OfferData} (acc : Money × List OfferPricingService.OfferLine)
    (h : (OfferPricingService.calculate_offer_price ext bad car bt units currency
        ce ne hd dp).isOk = false) :
    OfferPricingService.foldOffer ext car bt units currency ce ne hd dp acc bad = acc := by
  unfold OfferPricingService.foldOffer
  cases hcop : OfferPricingService.calculate_offer_price ext bad car bt units currency
      ce ne hd dp with
  | error e => rfl
  | ok a => rw [hcop] at h; simp [Except.isOk, Except.toBool] at h

/-- Removing an offer whose pricing raises from an extension batch does
not change the result of `calculate_total_extension_cost`. -/
theorem total_extension_skip (ext : ExtPrices) (car : CarData) (bt : String)
    (units : ℤ) (currency : String) (ce ne : Option ℤ) (hd : Bool) (dp : ℚ)
    (icr : Bool) (cr : Option ℚ) (pre post : List OfferData) (bad : OfferData)
    (h : (OfferPricingService.calculate_offer_price ext bad car bt units currency
        ce ne hd dp).isOk = false) :
    OfferPricingService.calculate_total_extension_cost ext car bt units
        (pre ++ bad :: post) currency ce ne hd dp icr cr
      = OfferPricingService.calculate_total_extension_cost ext car bt units
        (pre ++ post) currency ce ne hd dp icr cr := by
  unfold OfferPricingService.calculate_total_extension_cost
  simp only [foldl_skip (OfferPricingService.foldOffer ext car bt units currency ce ne hd dp)
    bad pre post (fun acc => foldOffer_skip acc h)]

/-- A successful `Money.add` carries the left operand's uppercased
currency. -/
theorem money_add_currency {a b m : Money} (h : a.add b = .ok m) :
    m.currency = myUpper a.currency := by
  unfold Money.add at h
  split at h
  · cases h
  · cases h
    rfl

/-- A successful base extension cost is denominated in the requested
currency (uppercased by the `Money` constructor). -/
theorem ext_cost_currency {car : CarData} {bt : String} {units : ℤ}
    {currency : String} {hd : Bool} {dp : ℚ} {icr : Bool} {cr : Option ℚ}
    {m : Money}
    (h : OfferPricingService.calculate_extension_cost car bt units currency hd dp icr cr
      = .ok m) : m.currency = myUpper currency := by
  unfold OfferPricingService.calculate_extension_cost at h
  split at h
  · split at h
    · simp only [exceptBind_error] at h
      cases h
    · simp only [exceptPure, exceptBind_ok] at h
      cases h
      rfl
  · cases hc : OfferPricingService.calculate_current_car_price car bt hd dp with
    | error e => simp only [hc, exceptBind_error] at h; cases h
    | ok p => simp only [hc, exceptPure, exceptBind_ok] at h; cases h; rfl

/-- The running total of the extension-batch offer loop always stays in
the requested currency. -/
theorem foldOffer_currency {ext : ExtPrices} {car : CarData} {bt : String}
    {units : ℤ} {currency : String} {ce ne : Option ℤ} {hd : Bool} {dp : ℚ}
    (offers : List OfferData) (acc : Money × List OfferPricingService.OfferLine)
    (hacc : acc.1.currency = myUpper currency) :
    (List.foldl (OfferPricingService.foldOffer ext car bt units currency ce ne hd dp)
      acc offers).1.currency = myUpper currency := by
  induction offers generalizing acc with
  | nil => simpa using hacc
  | cons o os ih =>
    rw [List.foldl_cons]
    apply ih
    unfold OfferPricingService.foldOffer
    cases hcop : OfferPricingService.calculate_offer_price ext o car bt units currency
        ce ne hd dp with
    | error e => simpa using hacc
    | ok cost =>
      simp only [exceptBind_ok]
      cases hadd : acc.1.add cost with
      | error e => simpa using hacc
      | ok t =>
        simp only [exceptBind_ok, exceptPure]
        have := money_add_currency hadd
        rw [this, hacc, myUpper_idem]

/-- A value that survives the trailing `<= 0` validation is positive. -/
theorem validated_ok {e x : ℚ}
    (hx : (if e ≤ 0 then
        (Except.error (PyErr.validationError "Invalid car price for booking type")
          : Except PyErr ℚ)
      else .ok e) = .ok x) : 0 < x := by
  by_cases h : e ≤ 0
  · rw [if_pos h] at hx
    cases hx
  · rw [if_neg h] at hx
    cases hx
    push_neg at h
    exact h

/-! ### Claim theorems -/

/-- C10: every `Money` value — constructed directly or returned by
`multiply`, `apply_discount`, `calculate_tax`, `add` or `subtract` —
stores its currency code uppercased, and consequently `add`/`subtract`
are case-insensitive with respect to the construction codes:
`Money(x, "sar")` and `Money(y, "SAR")` combine without a
currency-mismatch error. -/
theorem C10_currency_stored_uppercased (x y f d r : ℚ) (c : String) :
    (Money.make x c).currency = myUpper c ∧
    myUpper (myUpper c) = myUpper c ∧
    ((Money.make x c).multiply f).currency = myUpper c ∧
    ((Money.make x c).apply_discount d).currency = myUpper c ∧
    ((Money.make x c).calculate_tax r).currency = myUpper c ∧
    (Money.make x "sar").add (Money.make y "SAR")
      = .ok (Money.make (round28 (x + y)) "SAR") ∧
    (Money.make x "sar").subtract (Money.make y "SAR")
      = .ok (Money.make (round28 (x - y)) "SAR") := by
  refine ⟨rfl, myUpper_idem c, myUpper_idem c, myUpper_idem c, myUpper_idem c, ?_, ?_⟩
  · unfold Money.add
    rw [if_neg (by simp [Money.make]; rfl)]
    rfl
  · unfold Money.subtract
    rw [if_neg (by simp [Money.make]; rfl)]
    rfl

/-- C4 counterexample: `calculate_current_car_price` does **not** fail on
every non-positive resulting price — a truthy negative
`booked_day_price` is returned verbatim before the `<= 0` check — and an
unrecognized unit raises the builtin `ValueError` of the enum
conversion, not the domain `ValidationError` (`InvalidInput`). -/
theorem C4_counterexample :
    OfferPricingService.calculate_current_car_price
      { booked_day_price := some (-5), rental_price_day := some 100 } "Day" false 0
      = .ok (-5) ∧
    OfferPricingService.calculate_current_car_price {} "Fortnight" false 0
      = .error (.valueError "is not a valid BookingType") := by
  constructor
  · norm_num +decide [OfferPricingService.calculate_current_car_price,
      OfferPricingService.isBookingType]
  · norm_num +decide [OfferPricingService.calculate_current_car_price,
      OfferPricingService.isBookingType]

/-- C4 amended: an unrecognized unit fails with the builtin `ValueError`
(not `InvalidInput`); on the `Day` path a present, non-zero booked day
price is returned verbatim (even when negative); every other successful
resolution returns a strictly positive price (the `<= 0` check). -/
theorem C4_amended (car : CarData) (bt : String) (hd : Bool) (dp : ℚ) :
    (¬ OfferPricingService.isBookingType bt →
      OfferPricingService.calculate_current_car_price car bt hd dp
        = .error (.valueError "is not a valid BookingType")) ∧
    (∀ p : ℚ, car.booked_day_price = some p → p ≠ 0 →
      OfferPricingService.calculate_current_car_price car "Day" hd dp = .ok p) ∧
    (∀ x : ℚ, OfferPricingService.calculate_current_car_price car bt hd dp = .ok x →
      0 < x ∨ (bt = "Day" ∧ car.booked_day_price = some x)) := by
  refine ⟨?_, ?_, ?_⟩
  · intro hbt
    unfold OfferPricingService.calculate_current_car_price
    rw [if_pos hbt]
  · intro p hp hp0
    unfold OfferPricingService.calculate_current_car_price
    rw [if_neg (by simp [OfferPricingService.isBookingType])]
    rw [if_pos rfl, hp]
    simp [hp0]
  · intro x hx
    unfold OfferPricingService.calculate_current_car_price at hx
    by_cases hbt : OfferPricingService.isBookingType bt
    · rw [if_neg (by simpa using hbt)] at hx
      rcases hbt with hD | hW | hM
      · subst hD
        rw [if_pos rfl] at hx
        by_cases hb : car.booked_day_price.getD 0 ≠ 0
        · rw [if_pos hb] at hx
          cases hx
          right
          refine ⟨rfl, ?_⟩
          cases hbd : car.booked_day_price with
          | none => rw [hbd] at hb; simp at hb
          | some p => simp
        · rw [if_neg hb] at hx
          dsimp only at hx
          exact Or.inl (validated_ok hx)
      · subst hW
        rw [if_neg (by decide), if_pos rfl] at hx
        dsimp only at hx
        exact Or.inl (validated_ok hx)
      · subst hM
        rw [if_neg (by decide), if_neg (by decide)] at hx
        dsimp only at hx
        exact Or.inl (validated_ok hx)
    · rw [if_pos hbt] at hx
      cases hx

/-- C4 witness: the amended theorem applied at concrete inputs. -/
theorem C4_witness :
    OfferPricingService.calculate_current_car_price {} "Fortnight" true 10
      = .error (.valueError "is not a valid BookingType") ∧
    OfferPricingService.calculate_current_car_price { booked_day_price := some 7 }
      "Day" true 50 = .ok 7 ∧
    (0 < (100 : ℚ) ∨ ("Week" = "Day" ∧
      ({ rental_price_week := some 100 } : CarData).booked_day_price = some 100)) :=
  ⟨(C4_amended {} "Fortnight" true 10).1 (by decide),
   (C4_amended { booked_day_price := some 7 } "Day" true 50).2.1 7 rfl (by norm_num),
   (C4_amended { rental_price_week := some 100 } "Week" false 0).2.2 100
     (by norm_num +decide [OfferPricingService.calculate_current_car_price,
        OfferPricingService.isBookingType])⟩

/-- C5 counterexample: for a `Month` booking with unit count 0 the
Documents offer price is 0, not the claimed
`monthlyPrice × max(1, ceil(totalDays/30))` (which is one month's
price): the `Month` branch multiplies by the raw unit count with no
minimum-one-month floor. -/
theorem C5_counterexample :
    OfferPricingService.calculate_documents_offer_price_for_booking
      { offerPrice := some 100 } "Month" 0 "SAR" = .ok (Money.make 0 "SAR") ∧
    Money.make 0 "SAR" ≠ Money.make
      (100 * OfferPricingService.monthsNeeded (0 * OfferPricingService.DAYS_PER_MONTH))
      "SAR" := by
  constructor
  · norm_num +decide [OfferPricingService.calculate_documents_offer_price_for_booking,
      OfferPricingService.isBookingType]
  · have h1 : OfferPricingService.monthsNeeded (0 * OfferPricingService.DAYS_PER_MONTH)
        = 1 := by
      unfold OfferPricingService.monthsNeeded OfferPricingService.DAYS_PER_MONTH
      norm_num
      rw [Int.fdiv_eq_ediv _ (by norm_num)]
      decide
    rw [h1]
    simp [Money.make]

/-- C5 amended: for `Day` and `Week` bookings the Documents price is
`monthlyPrice × max(1, ceil(days/30))` as claimed; for `Month` it is
`monthlyPrice × units`, which agrees with the claimed formula for all
counts ≥ 1 but lacks the minimum-one-month floor at count 0.
`monthsNeeded` is monotone and `monthsNeeded 1 = 1`. -/
theorem C5_amended (offer : OfferData) (units : ℤ) (currency : String) :
    OfferPricingService.calculate_documents_offer_price_for_booking offer "Day" units currency
      = .ok (Money.make ((offer.offerPrice.getD (offer.price.getD 0))
          * OfferPricingService.monthsNeeded units) currency) ∧
    OfferPricingService.calculate_documents_offer_price_for_booking offer "Week" units currency
      = .ok (Money.make ((offer.offerPrice.getD (offer.price.getD 0))
          * OfferPricingService.monthsNeeded (units * OfferPricingService.DAYS_PER_WEEK))
          currency) ∧
    OfferPricingService.calculate_documents_offer_price_for_booking offer "Month" units currency
      = .ok (Money.make ((offer.offerPrice.getD (offer.price.getD 0)) * units) currency) ∧
    (1 ≤ units →
      OfferPricingService.calculate_documents_offer_price_for_booking offer "Month" units
          currency
        = .ok (Money.make ((offer.offerPrice.getD (offer.price.getD 0))
            * OfferPricingService.monthsNeeded (units * OfferPricingService.DAYS_PER_MONTH))
            currency)) ∧
    (∀ d1 d2 : ℤ, d1 ≤ d2 →
      OfferPricingService.monthsNeeded d1 ≤ OfferPricingService.monthsNeeded d2) ∧
    OfferPricingService.monthsNeeded 1 = 1 := by
  refine ⟨?_, ?_, ?_, ?_, ?_, ?_⟩
  · norm_num +decide [OfferPricingService.calculate_documents_offer_price_for_booking,
      OfferPricingService.isBookingType]
  · norm_num +decide [OfferPricingService.calculate_documents_offer_price_for_booking,
      OfferPricingService.isBookingType]
  · norm_num +decide [OfferPricingService.calculate_documents_offer_price_for_booking,
      OfferPricingService.isBookingType]
  · intro hu
    have hm : OfferPricingService.monthsNeeded (units * OfferPricingService.DAYS_PER_MONTH)
        = units := by
      unfold OfferPricingService.monthsNeeded OfferPricingService.DAYS_PER_MONTH
      rw [Int.fdiv_eq_ediv _ (by norm_num)]
      have h30 : (units * 30 + 29) / 30 = units := by omega
      rw [h30, max_eq_right hu]
    rw [hm]
    norm_num +decide [OfferPricingService.calculate_documents_offer_price_for_booking,
      OfferPricingService.isBookingType]
  · intro d1 d2 hle
    unfold OfferPricingService.monthsNeeded
    rw [Int.fdiv_eq_ediv _ (by norm_num), Int.fdiv_eq_ediv _ (by norm_num)]
    exact max_le_max le_rfl
      (Int.ediv_le_ediv (by norm_num) (by omega))
  · unfold OfferPricingService.monthsNeeded
    rw [Int.fdiv_eq_ediv _ (by norm_num)]
    decide

/-- C5 witness: the amended theorem applied at concrete inputs. -/
theorem C5_witness :
    OfferPricingService.calculate_documents_offer_price_for_booking
      { offerPrice := some 40 } "Week" 5 "SAR"
      = .ok (Money.make (40 * OfferPricingService.monthsNeeded
          (5 * OfferPricingService.DAYS_PER_WEEK)) "SAR") ∧
    OfferPricingService.calculate_documents_offer_price_for_booking
      { offerPrice := some 40 } "Month" 3 "SAR"
      = .ok (Money.make (40 * OfferPricingService.monthsNeeded
          (3 * OfferPricingService.DAYS_PER_MONTH)) "SAR") :=
  ⟨(C5_amended { offerPrice := some 40 } 5 "SAR").2.1,
   (C5_amended { offerPrice := some 40 } 3 "SAR").2.2.2.1 (by norm_num)⟩

/-- C6 counterexample: the legacy single-offer pricer of
`PricingService` does not fail on an unrecognized offer type — it falls
back to the offer's fixed price — and in the legacy booking batch the
unknown offer contributes that price to the total instead of being
omitted. -/
theorem C6_counterexample :
    PricingService.calculate_offer_price_legacy { type := some "alien", price := some 50 }
      (Money.make 100 "SAR") = Money.make 50 "SAR" ∧
    PricingService.calculate_offers_total [{ type := some "alien", price := some 50 }]
      (Money.make 100 "SAR") = .ok (Money.make 50 "SAR") ∧
    Money.make 50 "SAR" ≠ Money.make 0 "SAR" := by
  have r50 : round28 ((50 : ℚ)) = 50 := round28_decimal 50 0 (by norm_num) (by norm_num)
  refine ⟨?_, ?_, ?_⟩
  · norm_num +decide [PricingService.calculate_offer_price_legacy, Money.make,
      show myLower "alien" = "alien" from rfl, show myUpper "SAR" = "SAR" from rfl]
  · norm_num +decide [PricingService.calculate_offers_total,
      PricingService.calculate_offer_price_legacy, Money.make, Money.add, List.foldlM,
      show myLower "alien" = "alien" from rfl, show myUpper "SAR" = "SAR" from rfl,
      r50, exceptBind_ok, exceptPure]
  · simp [Money.make]

/-- C6 amended: in `OfferPricingService` an unrecognized offer type fails
with the domain `ValidationError` ("Unsupported offer type") and is
omitted from the extension batch while the remaining offers still
price; in the legacy `PricingService` path an unrecognized type never
fails and contributes its fixed price (default 0). -/
theorem C6_amended (ext : ExtPrices) (offer : OfferData) (car : CarData)
    (bt : String) (units : ℤ) (currency : String) (ce ne : Option ℤ)
    (hd : Bool) (dp : ℚ) (base : Money) (icr : Bool) (cr : Option ℚ)
    (pre post : List OfferData)
    (hbad : ¬ OfferPricingService.isOfferType (offer.offerType.getD (offer.type.getD ""))) :
    OfferPricingService.calculate_offer_price ext offer car bt units currency ce ne hd dp
      = .error (.validationError "Unsupported offer type") ∧
    OfferPricingService.calculate_total_extension_cost ext car bt units
        (pre ++ offer :: post) currency ce ne hd dp icr cr
      = OfferPricingService.calculate_total_extension_cost ext car bt units
        (pre ++ post) currency ce ne hd dp icr cr ∧
    (myLower (offer.type.getD "") ≠ "km_package" →
     myLower (offer.type.getD "") ≠ "insurance" →
     myLower (offer.type.getD "") ≠ "documents" →
     myLower (offer.type.getD "") ≠ "child_chair" →
      PricingService.calculate_offer_price_legacy offer base
        = Money.make (offer.price.getD 0) base.currency) := by
  have h1 : OfferPricingService.calculate_offer_price ext offer car bt units currency
      ce ne hd dp = .error (.validationError "Unsupported offer type") := by
    unfold OfferPricingService.calculate_offer_price
    dsimp only
    rw [if_pos hbad]
  refine ⟨h1, total_extension_skip ext car bt units currency ce ne hd dp icr cr pre post
    offer (by rw [h1]; rfl), ?_⟩
  intro h2 h3 h4 h5
  unfold PricingService.calculate_offer_price_legacy
  dsimp only
  rw [if_neg h2, if_neg h3, if_neg h4, if_neg h5]

/-- C6 witness: the amended theorem applied at concrete inputs. -/
theorem C6_witness :
    OfferPricingService.calculate_offer_price [] { offerType := some "Pony", price := some 5 }
      { rental_price_day := some 100 } "Day" 2 "SAR" none none false 0
      = .error (.validationError "Unsupported offer type") ∧
    OfferPricingService.calculate_total_extension_cost []
        { rental_price_day := some 100 } "Day" 2
        ([] ++ { offerType := some "Pony", price := some 5 } :: []) "SAR" none none false 0
        false none
      = OfferPricingService.calculate_total_extension_cost []
        { rental_price_day := some 100 } "Day" 2 ([] ++ []) "SAR" none none false 0
        false none ∧
    PricingService.calculate_offer_price_legacy { offerType := some "Pony", price := some 5 }
      (Money.make 100 "SAR")
      = Money.make (({ offerType := some "Pony", price := some 5 } : OfferData).price.getD 0)
        (Money.make 100 "SAR").currency := by
  have h := C6_amended [] { offerType := some "Pony", price := some 5 }
    { rental_price_day := some 100 } "Day" 2 "SAR" none none false 0
    (Money.make 100 "SAR") false none [] [] (by decide)
  exact ⟨h.1, h.2.1, h.2.2 (by decide) (by decide) (by decide) (by decide)⟩

/-- C7 counterexample: a negative discount percent on the rate-resolution
path is silently ignored — the call succeeds with the undiscounted
price, instead of failing with `InvalidInput` or applying the
`price × (1 − d/100)` formula. -/
theorem C7_counterexample :
    OfferPricingService.calculate_current_car_price { rental_price_week := some 100 }
      "Week" true (-5) = .ok 100 ∧
    (100 : ℚ) ≠ 100 * (1 - (-5) / 100) := by
  constructor
  · norm_num +decide [OfferPricingService.calculate_current_car_price,
      OfferPricingService.isBookingType]
  · norm_num

/-- C7 amended: `PricingService.apply_discount` validates the percent
range `[0,100]` and applies `Money.apply_discount`; the rate resolver
`calculate_current_car_price` performs no range validation — it applies
`price × (1 − d/100)` only when `d > 0` and silently ignores
non-positive percents. -/
theorem C7_amended (price : Money) (d : ℚ) (car : CarData) (w : ℚ) :
    ((d < 0 ∨ d > 100) →
      PricingService.apply_discount price d
        = .error (.validationError "Discount percent must be between 0 and 100")) ∧
    (¬ (d < 0 ∨ d > 100) →
      PricingService.apply_discount price d = .ok (price.apply_discount d)) ∧
    (car.rental_price_week = some w → 0 < w → 0 < d → d < 100 →
      OfferPricingService.calculate_current_car_price car "Week" true d
        = .ok (w * (1 - d / 100))) ∧
    (car.rental_price_week = some w → 0 < w → d ≤ 0 →
      OfferPricingService.calculate_current_car_price car "Week" true d = .ok w) := by
  refine ⟨?_, ?_, ?_, ?_⟩
  · intro h
    unfold PricingService.apply_discount
    rw [if_pos h]
  · intro h
    unfold PricingService.apply_discount
    rw [if_neg h]
  · intro hw h0w h0d hd100
    have hdiv : d / 100 < 1 := by
      rw [div_lt_one (show (0:ℚ) < 100 by norm_num)]
      exact hd100
    have hpos : 0 < w * (1 - d / 100) := mul_pos h0w (by linarith)
    unfold OfferPricingService.calculate_current_car_price
    rw [if_neg (by decide), if_neg (by decide), if_pos rfl]
    dsimp only
    rw [hw]
    simp only [Option.getD_some]
    rw [if_pos (show True ∧ d > 0 from ⟨trivial, h0d⟩)]
    rw [if_neg (show ¬(w * (1 - d / 100) ≤ 0) from by push_neg; exact hpos)]
  · intro hw h0w hd0
    unfold OfferPricingService.calculate_current_car_price
    rw [if_neg (by decide), if_neg (by decide), if_pos rfl]
    dsimp only
    rw [hw]
    simp only [Option.getD_some]
    rw [if_neg (show ¬(True ∧ d > 0) from fun hcon => absurd hcon.2 (by linarith))]
    rw [if_neg (show ¬(w ≤ 0) from by push_neg; exact h0w)]

/-- C7 witness: the amended theorem applied at concrete inputs. -/
theorem C7_witness :
    PricingService.apply_discount (Money.make 200 "SAR") 150
      = .error (.validationError "Discount percent must be between 0 and 100") ∧
    PricingService.apply_discount (Money.make 200 "SAR") 10
      = .ok ((Money.make 200 "SAR").apply_discount 10) ∧
    OfferPricingService.calculate_current_car_price { rental_price_week := some 100 }
      "Week" true 20 = .ok (100 * (1 - 20 / 100)) ∧
    OfferPricingService.calculate_current_car_price { rental_price_week := some 100 }
      "Week" true (-7) = .ok 100 := by
  refine ⟨(C7_amended (Money.make 200 "SAR") 150 {} 0).1 (by norm_num),
    (C7_amended (Money.make 200 "SAR") 10 {} 0).2.1 (by norm_num),
    (C7_amended (Money.make 0 "SAR") 20 { rental_price_week := some 100 } 100).2.2.1
      rfl (by norm_num) (by norm_num) (by norm_num),
    (C7_amended (Money.make 0 "SAR") (-7) { rental_price_week := some 100 } 100).2.2.2
      rfl (by norm_num) (by norm_num)⟩

/-- C8 counterexample: ChildChair pricing reads the service's stored
external L2/L3 tier prices — two calls with identical explicit
arguments but different stored state return different prices, so offer
pricing is not a pure function of its explicit arguments. -/
theorem C8_counterexample :
    OfferPricingService.calculate_offer_price []
      { offerType := some "ChildChair", offer := some "seat", offerPrice := some 3 }
      { rental_price_week := some 100 } "Week" 1 "SAR" none none false 0
      = .ok (Money.make 21 "SAR") ∧
    OfferPricingService.calculate_offer_price [("seat", { L2 := some 5 })]
      { offerType := some "ChildChair", offer := some "seat", offerPrice := some 3 }
      { rental_price_week := some 100 } "Week" 1 "SAR" none none false 0
      = .ok (Money.make 35 "SAR") ∧
    Money.make 21 "SAR" ≠ Money.make 35 "SAR" := by
  refine ⟨?_, ?_, ?_⟩
  · norm_num +decide [OfferPricingService.calculate_offer_price,
      OfferPricingService.calculate_current_car_price,
      OfferPricingService.calculate_total_days,
      OfferPricingService.calculate_child_chair_offer_price,
      OfferPricingService.isBookingType, OfferPricingService.isOfferType,
      OfferPricingService.DAYS_PER_WEEK, ExtPrices.get, List.lookup,
      exceptBind_ok, exceptPure, Money.make]
  · norm_num +decide [OfferPricingService.calculate_offer_price,
      OfferPricingService.calculate_current_car_price,
      OfferPricingService.calculate_total_days,
      OfferPricingService.calculate_child_chair_offer_price,
      OfferPricingService.isBookingType, OfferPricingService.isOfferType,
      OfferPricingService.DAYS_PER_WEEK, ExtPrices.get, List.lookup,
      exceptBind_ok, exceptPure, Money.make]
  · simp [Money.make]

/-- C8 amended: offer pricing is a deterministic function of the explicit
arguments *plus* the stored external tier prices; for the Insurance, KM
and Documents offer types (and for ChildChair on `Day` bookings) the
stored state is irrelevant — only ChildChair `Week`/`Month` pricing
reads it. -/
theorem C8_amended (s1 s2 : ExtPrices) (offer : OfferData) (car : CarData)
    (bt : String) (units td : ℤ) (currency : String) (ce ne : Option ℤ)
    (hd : Bool) (dp : ℚ)
    (hoff : OfferPricingService.isOfferType (offer.offerType.getD (offer.type.getD "")))
    (hne : offer.offerType.getD (offer.type.getD "") ≠ "ChildChair") :
    OfferPricingService.calculate_offer_price s1 offer car bt units currency ce ne hd dp
      = OfferPricingService.calculate_offer_price s2 offer car bt units currency ce ne hd dp ∧
    OfferPricingService.calculate_child_chair_offer_price s1 offer "Day" units td currency
      = OfferPricingService.calculate_child_chair_offer_price s2 offer "Day" units td
        currency := by
  constructor
  · rcases hoff with h | h | h | h
    · unfold OfferPricingService.calculate_offer_price
      dsimp only
      rw [h]
      norm_num +decide [OfferPricingService.isOfferType]
    · unfold OfferPricingService.calculate_offer_price
      dsimp only
      rw [h]
      norm_num +decide [OfferPricingService.isOfferType]
    · exact absurd h hne
    · unfold OfferPricingService.calculate_offer_price
      dsimp only
      rw [h]
      norm_num +decide [OfferPricingService.isOfferType]
  · unfold OfferPricingService.calculate_child_chair_offer_price
    norm_num +decide [OfferPricingService.isBookingType]

/-- C8 witness: the amended theorem applied at concrete inputs. -/
theorem C8_witness :
    OfferPricingService.calculate_offer_price []
      { offerType := some "Insurance", offer := some "ins" }
      { rental_price_week := some 100 } "Week" 2 "SAR" none none false 0
      = OfferPricingService.calculate_offer_price [("seat", { L2 := some 5 })]
      { offerType := some "Insurance", offer := some "ins" }
      { rental_price_week := some 100 } "Week" 2 "SAR" none none false 0 :=
  (C8_amended [] [("seat", { L2 := some 5 })]
    { offerType := some "Insurance", offer := some "ins" }
    { rental_price_week := some 100 } "Week" 2 0 "SAR" none none false 0
    (by decide) (by decide)).1

/-- C1 (code-bug evaluation): with dailyRate 700 SAR, unit Day, count 1,
no discount, delivery fee 50 and one Documents offer costing 100, the
code yields taxes = 1.05 (700 × 0.15/100) and total = 851.05 — not the
specified 15% taxes (105) and 955 total: `PricingService` hands the
fraction `0.15` to `Money.calculate_tax`, which divides by 100 again. -/
theorem C1_tax_scenario_evaluation :
    PricingService.calculate_total_booking_cost { rental_price_day := some 700 } "Day" 1 0 50
      [{ type := some "documents", price := some 100 }] false none =
    .ok { booking_cost := Money.make 700 "SAR", taxes := Money.make (21 / 20) "SAR",
          delivery_fee := Money.make 50 "SAR", offers_total := Money.make 100 "SAR",
          total_cost := Money.make (17021 / 20) "SAR" } ∧
    (21 / 20 : ℚ) ≠ 700 * (15 / 100) ∧
    (17021 / 20 : ℚ) ≠ 955 := by
  have r1 : round28 ((100 : ℚ)) = 100 := round28_decimal 100 0 (by norm_num) (by norm_num)
  have r2 : round28 ((3 : ℚ) / 2000) = 3 / 2000 :=
    round28_decimal 15 4 (by norm_num) (by norm_num)
  have r3 : round28 ((21 : ℚ) / 20) = 21 / 20 :=
    round28_decimal 105 2 (by norm_num) (by norm_num)
  have r4 : round28 ((14021 : ℚ) / 20) = 14021 / 20 :=
    round28_decimal 70105 2 (by norm_num) (by norm_num)
  have r5 : round28 ((15021 : ℚ) / 20) = 15021 / 20 :=
    round28_decimal 75105 2 (by norm_num) (by norm_num)
  have r6 : round28 ((17021 : ℚ) / 20) = 17021 / 20 :=
    round28_decimal 85105 2 (by norm_num) (by norm_num)
  refine ⟨?_, by norm_num, by norm_num⟩
  norm_num +decide [PricingService.calculate_total_booking_cost,
    PricingService.calculate_base_price, PricingService.calculate_taxes,
    PricingService.calculate_offers_total, PricingService.calculate_offer_price_legacy,
    Money.make, Money.add, Money.multiply, Money.calculate_tax, PricingService.TAX_RATE,
    show myUpper "SAR" = "SAR" from rfl, show myLower "documents" = "documents" from rfl,
    List.foldlM, exceptBind_ok, exceptBind_error, exceptPure, r1, r2, r3, r4, r5, r6]

/-- C3 (code-bug evaluation): extension pricing crashes with the builtin
`TypeError` on the weekly and monthly pro-ration paths (the `Decimal`
booking cost is divided by the float `duration_weeks` /
`duration_months`), and on the working daily path it adds 0.15% tax
instead of 15% (300.45 instead of 345 for a 3-day extension at rate
100/day); the `newEndDate ≤ endDate` rejection itself works. -/
theorem C3_extension_cost_evaluation :
    PricingService.calculate_extension_cost
      { booking_type := "Week", booking_cost := Money.make 700 "SAR",
        start_date := 0, end_date := 7 } 14
      = .error (.typeError "unsupported operand type for div") ∧
    PricingService.calculate_extension_cost
      { booking_type := "Month", booking_cost := Money.make 700 "SAR",
        start_date := 0, end_date := 30 } 60
      = .error (.typeError "unsupported operand type for div") ∧
    PricingService.calculate_extension_cost
      { booking_type := "Day", booking_cost := Money.make 700 "SAR",
        start_date := 0, end_date := 7 } 10
      = .ok (Money.make (6009 / 20) "SAR") ∧
    (6009 / 20 : ℚ) ≠ 700 / 7 * 3 * (1 + 15 / 100) ∧
    PricingService.calculate_extension_cost
      { booking_type := "Week", booking_cost := Money.make 700 "SAR",
        start_date := 0, end_date := 7 } 7
      = .error (.validationError "Extension date must be after current end date") := by
  have r100 : round28 ((100 : ℚ)) = 100 := round28_decimal 100 0 (by norm_num) (by norm_num)
  have r300 : round28 ((300 : ℚ)) = 300 := round28_decimal 300 0 (by norm_num) (by norm_num)
  have r2 : round28 ((3 : ℚ) / 2000) = 3 / 2000 :=
    round28_decimal 15 4 (by norm_num) (by norm_num)
  have r920 : round28 ((9 : ℚ) / 20) = 9 / 20 :=
    round28_decimal 45 2 (by norm_num) (by norm_num)
  have r6009 : round28 ((6009 : ℚ) / 20) = 6009 / 20 :=
    round28_decimal 30045 2 (by norm_num) (by norm_num)
  refine ⟨?_, ?_, ?_, by norm_num, ?_⟩
  · norm_num +decide [PricingService.calculate_extension_cost, PyNum.div, PyNum.mul,
      moneyOfPy, Money.make, exceptBind_ok, exceptBind_error, exceptPure]
  · norm_num +decide [PricingService.calculate_extension_cost, PyNum.div, PyNum.mul,
      moneyOfPy, Money.make, exceptBind_ok, exceptBind_error, exceptPure]
  · norm_num +decide [PricingService.calculate_extension_cost, PricingService.calculate_taxes,
      PyNum.div, PyNum.mul, moneyOfPy, Money.make, Money.add, Money.multiply,
      Money.calculate_tax, PricingService.TAX_RATE,
      show myUpper "SAR" = "SAR" from rfl,
      exceptBind_ok, exceptBind_error, exceptPure, r100, r300, r2, r920, r6009]
  · norm_num +decide [PricingService.calculate_extension_cost]

/-- The 29-digit sum `10^28 + 1` is context-rounded down to `10^28`
(half-even rounding to 28 significant digits). -/
theorem round28_pow28_succ : round28 ((10:ℚ) ^ 28 + 1) = 10 ^ 28 := by
  have hcast : ((10:ℚ) ^ 28 + 1) = (((10 ^ 28 + 1 : ℕ) : ℤ) : ℚ) := by push_cast; ring
  have hq0 : ((10:ℚ) ^ 28 + 1) ≠ 0 := by positivity
  have hnum : ((10:ℚ) ^ 28 + 1).num.natAbs = 10 ^ 28 + 1 := by
    rw [hcast, Rat.num_intCast]
    exact Int.natAbs_ofNat _
  have hden : ((10:ℚ) ^ 28 + 1).den = 1 := by rw [hcast, Rat.den_intCast]
  have hnd : numDigits ((10:ℚ) ^ 28 + 1).num.natAbs = 29 := by
    rw [hnum]
    exact numDigits_eq (by norm_num) (by norm_num)
  have hd1 : numDigits ((10:ℚ) ^ 28 + 1).den = 1 := by
    rw [hden]
    rfl
  have habs : |(10:ℚ) ^ 28 + 1| = (10:ℚ) ^ 28 + 1 := abs_of_pos (by positivity)
  have hde : decExp ((10:ℚ) ^ 28 + 1) = 28 := by
    unfold decExp
    rw [hnd, hd1, habs]
    rw [if_pos]
    · norm_num
    · have he : ((29 : ℕ) : ℤ) - ((1 : ℕ) : ℤ) = ((28 : ℕ) : ℤ) := by norm_num
      rw [he, zpow_natCast]
      norm_num
  unfold round28 ctxRound
  rw [if_neg hq0, hde]
  have h27 : (28 : ℤ) - (((28 : ℕ) : ℤ) - 1) = 1 := by norm_num
  rw [h27]
  have hfl : ⌊((10:ℚ) ^ 28 + 1) / 10 ^ (1:ℤ)⌋ = 10 ^ 27 := by
    rw [zpow_one, Int.floor_eq_iff]
    norm_num
  unfold hEven
  rw [hfl]
  rw [if_pos]
  · rw [zpow_one]
    push_cast
    norm_num
  · rw [zpow_one]
    push_cast
    norm_num

/-- C9 counterexample: `Decimal` context arithmetic rounds to 28
significant digits, so the add/subtract round trip is not exact for all
amounts: `(1 + 10^28) − 10^28` comes back as 0, not 1. -/
theorem C9_counterexample :
    (Money.make 1 "SAR").add (Money.make (10 ^ 28) "SAR")
      = .ok (Money.make (10 ^ 28) "SAR") ∧
    ((Money.make 1 "SAR").add (Money.make (10 ^ 28) "SAR") >>= fun s =>
        s.subtract (Money.make (10 ^ 28) "SAR")) = .ok (Money.make 0 "SAR") ∧
    Money.make 0 "SAR" ≠ Money.make 1 "SAR" := by
  have r1 : round28 ((10000000000000000000000000001 : ℚ))
      = 10000000000000000000000000000 := by
    rw [show ((10000000000000000000000000001 : ℚ)) = (10:ℚ) ^ 28 + 1 by norm_num]
    rw [round28_pow28_succ]
    norm_num
  refine ⟨?_, ?_, ?_⟩
  · norm_num +decide [Money.add, Money.make, r1, show myUpper "SAR" = "SAR" from rfl]
  · norm_num +decide [Money.add, Money.subtract, Money.make, r1, round28_zero,
      show myUpper "SAR" = "SAR" from rfl, exceptBind_ok]
  · simp [Money.make]

/-- C9 amended: the round trip `a.add(b).subtract(b) == a` holds exactly
whenever no 28-digit context rounding occurs — e.g. for all amounts that
are integer numbers of cents below 10^25 in magnitude — but not for all
`Money` values (see the counterexample). -/
theorem C9_amended (a b : ℤ) (c : String)
    (ha : a.natAbs < 10 ^ 25) (hb : b.natAbs < 10 ^ 25) :
    ((Money.make ((a : ℚ) / 100) c).add (Money.make ((b : ℚ) / 100) c) >>= fun s =>
      s.subtract (Money.make ((b : ℚ) / 100) c)) = .ok (Money.make ((a : ℚ) / 100) c) := by
  have hpow : (10 : ℕ) ^ 25 + 10 ^ 25 ≤ 10 ^ 28 := by norm_num
  have hadd : round28 ((a : ℚ) / 100 + (b : ℚ) / 100) = (a : ℚ) / 100 + (b : ℚ) / 100 :=
    round28_decimal (a + b) 2 (by push_cast; ring)
      (by have := Int.natAbs_add_le a b; omega)
  have hsub : round28 ((a : ℚ) / 100 + (b : ℚ) / 100 - (b : ℚ) / 100) = (a : ℚ) / 100 := by
    rw [show ((a : ℚ) / 100 + (b : ℚ) / 100 - (b : ℚ) / 100) = (a : ℚ) / 100 by ring]
    exact round28_decimal a 2 (by ring) (by omega)
  rw [money_add_of_currency_eq (a := Money.make ((a : ℚ) / 100) c)
    (b := Money.make ((b : ℚ) / 100) c) rfl, exceptBind_ok]
  unfold Money.subtract
  rw [if_neg (by simp [Money.make, myUpper_idem])]
  simp only [Money.make, hadd, hsub, myUpper_idem]

/-- Every price produced by the legacy per-offer pricer carries the base
price's uppercased currency. -/
theorem legacy_offer_price_currency (offer : OfferData) (base : Money) :
    (PricingService.calculate_offer_price_legacy offer base).currency
      = myUpper base.currency := by
  unfold PricingService.calculate_offer_price_legacy
  dsimp only
  split
  · rfl
  split
  · rfl
  split
  · rfl
  split
  · rfl
  · rfl

/-- The legacy booking batch never raises: every partial sum stays in the
base currency, so each `Money.add` succeeds. -/
theorem offers_total_ok (offers : List OfferData) (base : Money) :
    ∀ total : Money, total.currency = myUpper base.currency →
    (List.foldlM (fun (t : Money) (o : OfferData) =>
        t.add (PricingService.calculate_offer_price_legacy o base))
      total offers).isOk = true := by
  induction offers with
  | nil => intro t ht; rfl
  | cons o os ih =>
    intro t ht
    rw [List.foldlM_cons]
    rw [money_add_of_currency_eq (a := t)
      (b := PricingService.calculate_offer_price_legacy o base)
      (by rw [ht, legacy_offer_price_currency])]
    rw [exceptBind_ok]
    exact ih _ (by show myUpper t.currency = myUpper base.currency; rw [ht, myUpper_idem])

/-- If the extension breakdown succeeds with no offers, it succeeds with
any offer list: per-offer failures are swallowed by the loop and the
running total stays in the requested currency, so no new error can
arise from the offers. -/
theorem ext_batch_ok (ext : ExtPrices) (car : CarData) (bt : String)
    (units : ℤ) (currency : String) (ce ne : Option ℤ) (hd : Bool) (dp : ℚ)
    (icr : Bool) (cr : Option ℚ)
    (h : (OfferPricingService.calculate_total_extension_cost ext car bt units [] currency
        ce ne hd dp icr cr).isOk = true)
    (offers : List OfferData) :
    (OfferPricingService.calculate_total_extension_cost ext car bt units offers
      currency ce ne hd dp icr cr).isOk = true := by
  unfold OfferPricingService.calculate_total_extension_cost at h ⊢
  cases hec : OfferPricingService.calculate_extension_cost car bt units currency hd dp
      icr cr with
  | error e =>
    rw [hec] at h
    simp only [exceptBind_error] at h
    exact absurd h (by simp [Except.isOk, Except.toBool])
  | ok ec =>
    rw [hec] at h
    simp only [exceptBind_ok, List.foldl_nil] at h ⊢
    have hecc : ec.currency = myUpper currency := ext_cost_currency hec
    rw [money_add_of_currency_eq (a := ec) (b := Money.make 0 currency)
      (by rw [hecc]; rfl)] at h
    have hfc : (List.foldl (OfferPricingService.foldOffer ext car bt units currency ce ne hd dp)
        (Money.make 0 currency, []) offers).1.currency = myUpper currency :=
      foldOffer_currency offers _ rfl
    rw [money_add_of_currency_eq (a := ec)
      (b := (List.foldl (OfferPricingService.foldOffer ext car bt units currency ce ne hd dp)
        (Money.make 0 currency, []) offers).1)
      (by rw [hecc, hfc])]
    simp only [exceptBind_ok] at h ⊢
    have haddT : ∀ (x : ℚ) (c2 : String),
        (Money.make x c2).add ((Money.make x c2).multiply OfferPricingService.TAX_RATE)
          = .ok (Money.make (round28 ((Money.make x c2).amount
              + ((Money.make x c2).multiply OfferPricingService.TAX_RATE).amount))
            (Money.make x c2).currency) :=
      fun x c2 => money_add_of_currency_eq
        (by show myUpper c2 = myUpper (myUpper c2); rw [myUpper_idem])
    rw [haddT] at h
    rw [haddT]
    simp only [exceptBind_ok] at h ⊢
    cases htd : OfferPricingService.calculate_total_days bt units with
    | error e =>
      rw [htd] at h
      simp only [exceptBind_error] at h
      exact absurd h (by simp [Except.isOk, Except.toBool])
    | ok td =>
      rw [htd] at h
      simp only [exceptBind_ok] at h ⊢
      by_cases hicr : icr
      · simp only [hicr] at h ⊢
        simp [exceptPure, exceptBind_ok, Except.isOk, Except.toBool]
      · simp only [eq_false hicr] at h ⊢
        cases hcp : OfferPricingService.calculate_current_car_price car bt hd dp with
        | error e =>
          rw [hcp] at h
          simp only [exceptBind_error] at h
          simp [Except.isOk, Except.toBool] at h
        | ok p =>
          simp [exceptPure, exceptBind_ok, Except.isOk, Except.toBool]

/-- C2: a failing offer in a batch is skipped — removing it changes
nothing, the batch result stays a successful breakdown whenever the
offer-independent parts succeed — and the legacy booking batch is total
(its per-offer pricer cannot raise at all, so the fold always returns a
total). -/
theorem C2_batch_pricing_skips_failures (ext : ExtPrices) (car : CarData) (bt : String)
    (units : ℤ) (currency : String) (ce ne : Option ℤ) (hd : Bool) (dp : ℚ)
    (icr : Bool) (cr : Option ℚ) :
    (∀ pre post bad,
      (OfferPricingService.calculate_offer_price ext bad car bt units currency
        ce ne hd dp).isOk = false →
      OfferPricingService.calculate_total_extension_cost ext car bt units
          (pre ++ bad :: post) currency ce ne hd dp icr cr
        = OfferPricingService.calculate_total_extension_cost ext car bt units
          (pre ++ post) currency ce ne hd dp icr cr) ∧
    ((OfferPricingService.calculate_total_extension_cost ext car bt units [] currency
        ce ne hd dp icr cr).isOk = true →
      ∀ offers, (OfferPricingService.calculate_total_extension_cost ext car bt units offers
        currency ce ne hd dp icr cr).isOk = true) ∧
    (∀ (offers : List OfferData) (base : Money),
      (PricingService.calculate_offers_total offers base).isOk = true) := by
  refine ⟨fun pre post bad hbad =>
    total_extension_skip ext car bt units currency ce ne hd dp icr cr pre post bad hbad,
    fun h offers => ext_batch_ok ext car bt units currency ce ne hd dp icr cr h offers,
    fun offers base => ?_⟩
  unfold PricingService.calculate_offers_total
  exact offers_total_ok offers base _ rfl

/-- C2 witness: a concrete batch with an unpriceable offer in the middle
equals the batch without it and still succeeds; a concrete legacy batch
succeeds. -/
theorem C2_witness :
    OfferPricingService.calculate_total_extension_cost [] { rental_price_day := some 100 }
        "Day" 2 ([{ offerType := some "Insurance" }] ++ { offerType := some "Bad" } :: [])
        "SAR" none none false 0 false none
      = OfferPricingService.calculate_total_extension_cost []
        { rental_price_day := some 100 } "Day" 2
        ([{ offerType := some "Insurance" }] ++ []) "SAR" none none false 0 false none ∧
    (OfferPricingService.calculate_total_extension_cost [] { rental_price_day := some 100 }
        "Day" 2 [{ offerType := some "Insurance" }, { offerType := some "Bad" }] "SAR"
        none none false 0 false none).isOk = true ∧
    (PricingService.calculate_offers_total [{ type := some "documents", price := some 30 }]
      (Money.make 80 "SAR")).isOk = true := by
  have h := C2_batch_pricing_skips_failures [] { rental_price_day := some 100 } "Day" 2
    "SAR" none none false 0 false none
  exact ⟨h.1 [{ offerType := some "Insurance" }] [] { offerType := some "Bad" } (by decide),
    h.2.1 (by decide) [{ offerType := some "Insurance" }, { offerType := some "Bad" }],
    h.2.2 [{ type := some "documents", price := some 30 }] (Money.make 80 "SAR")⟩

/-- C9 witness: the amended round trip at concrete cent amounts. -/
theorem C9_witness :
    ((Money.make (((150 : ℤ) : ℚ) / 100) "SAR").add
        (Money.make (((275 : ℤ) : ℚ) / 100) "SAR") >>= fun s =>
      s.subtract (Money.make (((275 : ℤ) : ℚ) / 100) "SAR"))
      = .ok (Money.make (((150 : ℤ) : ℚ) / 100) "SAR") :=
  C9_amended 150 275 "SAR" (by norm_num) (by norm_num)

end CarRental
